import Mathlib

/-!
Shallow embedding of the generation-and-dual-write pipeline of the
ai-knowledge-graph repository.

The pipeline under verification is `generate_knowledge_graph` in
src/kg_service.py (the `/generate` endpoint); the older variant
`generate_graph` in src/main.py (the `/generate-graph` endpoint) is embedded
separately because it handles generator failure differently.

External effects (the filesystem, the generator subprocess, the database) are
modelled by an `Env` of oracles consumed in program order, and the run returns,
besides its result, the list of effectful events it performed, so that claims
about which effects happen (and in which order) are statements about the trace.
-/

namespace KGService

/-- kg_service.py line 114: `MAX_CONTENT = int(os.getenv('MAX_CONTENT_SIZE', 10_485_760))`,
modelled at its default value.  Note: this constant is loaded but never consulted by
`generate_knowledge_graph`. -/
def MAX_CONTENT : Nat := 10485760

/-- kg_service.py lines 138-141: `class OutputMode(str, Enum)` with members BOTH, DB, FILE. -/
inductive OutputMode
  | file
  | db
  | both
deriving DecidableEq, Repr

/-- kg_service.py lines 143-145: `class GenerationRequest(BaseModel)` with fields
`output_mode: OutputMode = OutputMode.FILE` and `metadata: Optional[dict]`.
The metadata mapping is opaque to the pipeline, so it is modelled as an
optional string. -/
structure GenerationRequest where
  output_mode : OutputMode
  metadata : Option String
deriving DecidableEq, Repr

/-- Pydantic model construction: a request body that omits `output_mode` takes the
declared default `OutputMode.FILE` (kg_service.py line 144); a request body that
omits `metadata` gets `None`. -/
def parseRequest (mode : Option OutputMode) (metadata : Option String) : GenerationRequest :=
  ⟨mode.getD OutputMode.file, metadata⟩

/-- Outcome of `subprocess.run(cmd, shell=True, check=True, timeout=30)`
(kg_service.py line 164): either the generator fails to finish within the
30-second bound, or it terminates with an exit code and some text on its
standard error.  With `shell=True` and no `capture_output`, the standard error
text is NOT captured by the service (it goes to the server console). -/
inductive GenOutcome
  | timeout
  | exited (code : Nat) (stderr : String)
deriving DecidableEq, Repr

/-- Oracles for the external world, consumed in program order by one run.
`inputSize` is the byte size of the uploaded file; the pipeline never reads it.
`cwd` is the working directory used by `os.path.abspath`.
`dirWritable` is the result of `os.access(os.path.dirname(output_path), os.W_OK)`.
`genOutcome` is the behaviour of the generator subprocess if it is invoked.
`fileContent` is what `open(output_path).read()` yields (`none` = the open fails,
raising FileNotFoundError).
`fileExistsAfter` is `os.path.exists(output_path)` at verification time.
`dbInsert` is the outcome of the `db.add`/`db.commit` attempt: the assigned row
id on success, or the exception text on failure. -/
structure Env where
  inputSize : Nat
  cwd : String
  dirWritable : Bool
  genOutcome : GenOutcome
  fileContent : Option String
  fileExistsAfter : Bool
  dbInsert : Except String Nat
deriving Repr

/-- How a run fails: a deliberately raised `HTTPException(status, detail)`, or an
uncaught Python exception (named by its class), which FastAPI turns into a
generic 500 response. -/
inductive Failure
  | http (status : Nat) (detail : String)
  | uncaught (exc : String)
deriving DecidableEq, Repr

/-- The status code and detail text that reach the caller: an `HTTPException`
carries its own status and detail; an uncaught exception becomes a generic
500 "Internal Server Error" with no detail from the exception. -/
def visibleResponse : Failure → Nat × String
  | Failure.http s d => (s, d)
  | Failure.uncaught _ => (500, "Internal Server Error")

/-- kg_service.py lines 197-200: the JSON object returned on success, with
nullable `file_path` and `db_id`. -/
structure PipelineResult where
  file_path : Option String
  db_id : Option Nat
deriving DecidableEq, Repr

/-- The effectful events a run can perform, in the order it performs them.
`removeFile` (deleting a file from the output directory) is in the vocabulary
so that its absence from every trace is provable; the pipeline never emits it. -/
inductive Event
  | invokeGenerator
  | openOutput
  | dbAdd
  | dbCommit
  | dbRollback
  | dbClose
  | verifyCheck
  | removeFile
deriving DecidableEq, Repr

/-- `request.output_mode in [OutputMode.FILE, OutputMode.BOTH]`
(kg_service.py lines 156 and 198). -/
def fileModes (m : OutputMode) : Bool :=
  m == OutputMode.file || m == OutputMode.both

/-- `request.output_mode in [OutputMode.DB, OutputMode.BOTH]`
(kg_service.py lines 169 and 199). -/
def dbModes (m : OutputMode) : Bool :=
  m == OutputMode.db || m == OutputMode.both

/-- kg_service.py line 152: `output_path = f"./output/{input_file.filename}"`. -/
def outputPath (filename : String) : String := "./output/" ++ filename

/-- kg_service.py line 198: `os.path.abspath(output_path)`, the "./"-relative
output path resolved against the working directory. -/
def absOutputPath (env : Env) (filename : String) : String :=
  env.cwd ++ "/output/" ++ filename

/-- kg_service.py lines 197-200: assemble the response.  `db_record.id` is read
only when the mode includes DB; in FILE mode `db_record` is still `None` and the
conditional expression short-circuits to `None`.  (The `none` case under a DB
mode would be Python's AttributeError on `None.id`; it is unreachable because
the DB branch always ran and succeeded before this point.) -/
def finish (filename : String) (req : GenerationRequest) (env : Env)
    (dbRecord : Option Nat) (evs : List Event) :
    Except Failure PipelineResult × List Event :=
  let fp : Option String :=
    if fileModes req.output_mode then some (absOutputPath env filename) else none
  if dbModes req.output_mode then
    match dbRecord with
    | some i => (Except.ok ⟨fp, some i⟩, evs)
    | none => (Except.error (Failure.uncaught "AttributeError"), evs)
  else
    (Except.ok ⟨fp, none⟩, evs)

/-- kg_service.py lines 193-195: the BOTH-mode verification.
`if not (os.path.exists(output_path) and db_record.id): raise HTTPException(500,
"Dual write failed")`.  `and` short-circuits: `os.path.exists` is consulted
first, and `db_record.id` only if the file exists; a falsy id (None or 0) also
fails the check. -/
def verifyPhase (filename : String) (req : GenerationRequest) (env : Env)
    (dbRecord : Option Nat) (evs : List Event) :
    Except Failure PipelineResult × List Event :=
  if req.output_mode == OutputMode.both then
    let evs := evs ++ [Event.verifyCheck]
    if !env.fileExistsAfter then
      (Except.error (Failure.http 500 "Dual write failed"), evs)
    else
      match dbRecord with
      | some i =>
          if i != 0 then
            finish filename req env dbRecord evs
          else
            (Except.error (Failure.http 500 "Dual write failed"), evs)
      | none => (Except.error (Failure.uncaught "AttributeError"), evs)
  else
    finish filename req env dbRecord evs

/-- kg_service.py lines 169-190: the database branch.  Runs when the mode is DB
or BOTH: open and read the output file (uncaught FileNotFoundError if it is not
there), reject content longer than 10,000,000 with a 413, then try
`db.add`/`db.commit`; on failure `db.rollback()` then raise 500 with the
exception text, with `db.close()` in a `finally` block either way. -/
def dbPhase (filename : String) (req : GenerationRequest) (env : Env)
    (evs : List Event) :
    Except Failure PipelineResult × List Event :=
  if dbModes req.output_mode then
    let evs := evs ++ [Event.openOutput]
    match env.fileContent with
    | none => (Except.error (Failure.uncaught "FileNotFoundError"), evs)
    | some content =>
      if content.length > 10000000 then
        (Except.error (Failure.http 413 "Content too large"), evs)
      else
        let evs := evs ++ [Event.dbAdd]
        match env.dbInsert with
        | Except.ok i =>
            verifyPhase filename req env (some i) (evs ++ [Event.dbCommit, Event.dbClose])
        | Except.error e =>
            (Except.error (Failure.http 500 e), evs ++ [Event.dbRollback, Event.dbClose])
  else
    verifyPhase filename req env none evs

/-- kg_service.py lines 148-200: the `/generate` pipeline.  If the mode is FILE
or BOTH: check directory writability (403 if not writable), then run the
generator with a 30-second timeout — `subprocess.TimeoutExpired` is caught and
re-raised as a 504, while a non-zero exit raises `CalledProcessError`
(`check=True`) which is NOT caught.  Then the database branch, the BOTH-mode
verification, and the response.  Note the pipeline never consults
`env.inputSize` and never emits `Event.removeFile`. -/
def generate_knowledge_graph (filename : String) (req : GenerationRequest)
    (env : Env) :
    Except Failure PipelineResult × List Event :=
  if fileModes req.output_mode then
    if !env.dirWritable then
      (Except.error (Failure.http 403 "Directory not writable"), [])
    else
      match env.genOutcome with
      | GenOutcome.timeout =>
          (Except.error (Failure.http 504 "Generation timeout"), [Event.invokeGenerator])
      | GenOutcome.exited code _ =>
          if code != 0 then
            (Except.error (Failure.uncaught "CalledProcessError"), [Event.invokeGenerator])
          else
            dbPhase filename req env [Event.invokeGenerator]
  else
    dbPhase filename req env []

end KGService

namespace MainPy

/-- main.py line 114: `GraphRequest` with the input and output file paths used
to build the generator command line. -/
structure GraphRequest where
  input_file : String
  output_file : String
deriving DecidableEq, Repr

/-- Outcome of `subprocess.run([...], capture_output=True, text=True, check=True)`
(main.py lines 124-134): success with captured stdout, `CalledProcessError`
with the return code and captured stderr, or any other exception. -/
inductive SubprocOutcome
  | ok (stdout : String)
  | calledProcessError (returncode : Int) (stderr : String)
  | otherError (msg : String)
deriving DecidableEq, Repr

/-- main.py lines 137-141: the JSON object returned on success. -/
structure SuccessResponse where
  status : String
  message : String
  output_file : String
deriving DecidableEq, Repr

/-- main.py lines 143-161: the detail dict of the raised `HTTPException`:
status, message, and (for subprocess failures only) the return code. -/
structure ErrorDetail where
  status : String
  message : String
  returncode : Option Int
deriving DecidableEq, Repr

/-- main.py lines 113-161: the `/generate-graph` endpoint.  A non-zero
generator exit is caught as `CalledProcessError` and turned into a 500 whose
message embeds the captured stderr; any other exception becomes a 500 with a
generic system-error message. -/
def generate_graph (req : GraphRequest) (proc : SubprocOutcome) :
    Except (Nat × ErrorDetail) SuccessResponse :=
  match proc with
  | SubprocOutcome.ok out =>
      Except.ok ⟨"success", out, req.output_file⟩
  | SubprocOutcome.calledProcessError code stderr =>
      Except.error (500, ⟨"error", "執行失敗: " ++ stderr, some code⟩)
  | SubprocOutcome.otherError m =>
      Except.error (500, ⟨"error", "系統錯誤: " ++ m, none⟩)

end MainPy

/-- `leadsWith n l` holds when the character list `n` occurs at the start of `l`. -/
def leadsWith : List Char → List Char → Bool
  | [], _ => true
  | _ :: _, [] => false
  | a :: as, b :: bs => a == b && leadsWith as bs

/-- `hasSub n l` holds when the character list `n` occurs contiguously inside `l`. -/
def hasSub (needle : List Char) : List Char → Bool
  | [] => leadsWith needle []
  | c :: rest => leadsWith needle (c :: rest) || hasSub needle rest

/-- Substring containment of strings, via their character lists. -/
def strContains (hay needle : String) : Bool :=
  hasSub needle.data hay.data

open KGService

theorem fileModes_file : fileModes OutputMode.file = true := rfl

theorem fileModes_db : fileModes OutputMode.db = false := rfl

theorem fileModes_both : fileModes OutputMode.both = true := rfl

theorem dbModes_file : dbModes OutputMode.file = false := rfl

theorem dbModes_db : dbModes OutputMode.db = true := rfl

theorem dbModes_both : dbModes OutputMode.both = true := rfl

theorem leadsWith_self (l : List Char) : leadsWith l l = true := by
  induction l with
  | nil => rfl
  | cons a as ih => simp [leadsWith, ih]

theorem hasSub_self (n : List Char) : hasSub n n = true := by
  cases n with
  | nil => rfl
  | cons c rest => simp [hasSub, leadsWith_self]

theorem hasSub_append (p n : List Char) : hasSub n (p ++ n) = true := by
  induction p with
  | nil => simpa using hasSub_self n
  | cons a as ih => simp [hasSub, ih]

theorem string_data_append (a b : String) : (a ++ b).data = a.data ++ b.data := rfl

/-- Appending a string to the right of any string yields a string that contains it. -/
theorem strContains_append_right (p n : String) : strContains (p ++ n) n = true := by
  simp [strContains, string_data_append, hasSub_append]

theorem finish_trace (f : String) (r : GenerationRequest) (e : Env)
    (dbr : Option Nat) (evs : List Event) : (finish f r e dbr evs).2 = evs := by
  simp only [finish]
  split
  · cases dbr <;> rfl
  · rfl

theorem verifyPhase_trace (f : String) (r : GenerationRequest) (e : Env)
    (dbr : Option Nat) (evs : List Event) :
    ∃ rest, (verifyPhase f r e dbr evs).2 = evs ++ rest ∧
      Event.invokeGenerator ∉ rest := by
  simp only [verifyPhase]
  split
  · refine ⟨[Event.verifyCheck], ?_, by decide⟩
    split
    · rfl
    · split <;> first | rfl | (split <;> simp [finish_trace])
  · exact ⟨[], by simp [finish_trace], by decide⟩

theorem dbPhase_trace (f : String) (r : GenerationRequest) (e : Env)
    (evs : List Event) :
    ∃ rest, (dbPhase f r e evs).2 = evs ++ rest ∧
      Event.invokeGenerator ∉ rest ∧
      (dbModes r.output_mode = true → Event.openOutput ∈ rest) := by
  simp only [dbPhase]
  split
  · split
    · exact ⟨[Event.openOutput], rfl, by decide, fun _ => by decide⟩
    · split
      · exact ⟨[Event.openOutput], rfl, by decide, fun _ => by decide⟩
      · split
        · rename_i i hi
          obtain ⟨r2, h2, h3⟩ := verifyPhase_trace f r e (some i)
            (evs ++ [Event.openOutput] ++ [Event.dbAdd] ++ [Event.dbCommit, Event.dbClose])
          refine ⟨[Event.openOutput, Event.dbAdd, Event.dbCommit, Event.dbClose] ++ r2,
            ?_, ?_, fun _ => by simp⟩
          · rw [h2]; simp
          · simp only [List.mem_append]
            rintro (h | h)
            · revert h; decide
            · exact h3 h
        · exact ⟨[Event.openOutput, Event.dbAdd, Event.dbRollback, Event.dbClose],
            by simp, by decide, fun _ => by decide⟩
  · obtain ⟨r2, h2, h3⟩ := verifyPhase_trace f r e none evs
    exact ⟨r2, h2, h3, fun hc => absurd hc (by assumption)⟩

/-- Environment for the C1 scenario: an uploaded file of 10,485,761 bytes (one
byte over the configured maximum), a writable output directory, a generator
that exits 0. -/
def c1Env : Env :=
  ⟨10485761, "/srv", true, GenOutcome.exited 0 "", some "x", true, Except.ok 1⟩

/-- C1: the claim says a request whose input file size exceeds MAX_CONTENT
(10,485,760 bytes) fails with 413 InputTooLarge before the generator is
invoked.  The code never reads the input size (`MAX_CONTENT` is loaded at
kg_service.py line 114 but never consulted): at input size 10,485,761 in FILE
mode the run succeeds and the generator IS invoked. -/
theorem c1_input_size_never_checked :
    MAX_CONTENT < c1Env.inputSize ∧
    generate_knowledge_graph "doc.txt" ⟨OutputMode.file, none⟩ c1Env =
      (Except.ok ⟨some "/srv/output/doc.txt", none⟩, [Event.invokeGenerator]) := by
  exact ⟨by decide, rfl⟩

/-- Environment for the C2 counterexample: no file-mode work is requested, the
output path already holds readable content, the database insert succeeds. -/
def c2Env : Env :=
  ⟨500, "/srv", true, GenOutcome.exited 0 "", some "content", true, Except.ok 1⟩

/-- C2 counterexample: a DB-only request completes successfully although the
generator was never invoked, refuting the claim that the generation step still
runs whenever DB output is requested. -/
theorem c2_only_db_counterexample :
    (generate_knowledge_graph "doc.txt" ⟨OutputMode.db, none⟩ c2Env).1 =
      Except.ok ⟨none, some 1⟩ ∧
    Event.invokeGenerator ∉
      (generate_knowledge_graph "doc.txt" ⟨OutputMode.db, none⟩ c2Env).2 := by
  exact ⟨rfl, by decide⟩

/-- C2 (amended): the generator is invoked exactly when the requested mode is
FILE or BOTH and the directory check passed; a DB-only request never invokes
it, and reads the content for the database write directly from the output
path. -/
theorem c2_generator_iff_file_modes (filename : String) (req : GenerationRequest)
    (env : Env) (md : Option String) :
    (Event.invokeGenerator ∈ (generate_knowledge_graph filename req env).2 ↔
      (fileModes req.output_mode = true ∧ env.dirWritable = true)) ∧
    Event.openOutput ∈
      (generate_knowledge_graph filename ⟨OutputMode.db, md⟩ env).2 := by
  constructor
  · constructor
    · intro hmem
      by_cases hm : fileModes req.output_mode = true
      · refine ⟨hm, ?_⟩
        by_cases hw : env.dirWritable = true
        · exact hw
        · have hw2 : env.dirWritable = false := by
            cases hwc : env.dirWritable
            · rfl
            · exact absurd hwc hw
          rw [generate_knowledge_graph] at hmem
          simp [hm, hw2] at hmem
      · obtain ⟨r2, h2, h3, _⟩ := dbPhase_trace filename req env []
        rw [generate_knowledge_graph] at hmem
        simp only [hm] at hmem
        rw [if_neg (by simp [hm]), h2] at hmem
        simp at hmem
        exact absurd hmem h3
    · rintro ⟨hm, hw⟩
      rw [generate_knowledge_graph]
      simp only [hm, hw, if_true]
      cases env.genOutcome with
      | timeout => simp
      | exited code s =>
        by_cases hc : code = 0
        · subst hc
          obtain ⟨r2, h2, _, _⟩ := dbPhase_trace filename req env [Event.invokeGenerator]
          simp [h2]
        · have hb : (code != 0) = true := by simpa using hc
          simp [hb]
  · obtain ⟨r2, h2, _, h4⟩ := dbPhase_trace filename ⟨OutputMode.db, md⟩ env []
    rw [generate_knowledge_graph]
    simp only [fileModes_db]
    rw [if_neg (by simp), h2]
    simpa using h4 rfl

/-- Environment for the C3 counterexample: writable directory, generator exits
with code 1 and writes "parse error" to its (uncaptured) standard error. -/
def c3Env : Env :=
  ⟨500, "/srv", true, GenOutcome.exited 1 "parse error", some "x", true, Except.ok 1⟩

/-- C3 counterexample: in the kg_service pipeline a generator exit of 1 with
stderr "parse error" raises an uncaught `CalledProcessError` (only
`TimeoutExpired` is caught, and `shell=True` without `capture_output` does not
capture stderr); the caller sees a generic 500 "Internal Server Error" whose
message does not contain "parse error". -/
theorem c3_pipeline_counterexample :
    (generate_knowledge_graph "doc.txt" ⟨OutputMode.file, none⟩ c3Env).1 =
      Except.error (Failure.uncaught "CalledProcessError") ∧
    visibleResponse (Failure.uncaught "CalledProcessError") =
      (500, "Internal Server Error") ∧
    strContains "Internal Server Error" "parse error" = false := by
  exact ⟨rfl, rfl, by decide⟩

/-- C3 (amended): in main.py's generate-graph endpoint, where stderr IS
captured and `CalledProcessError` IS caught, a non-zero generator exit yields
HTTP 500 whose message contains the captured standard-error text. -/
theorem c3_stderr_in_error_message (req : MainPy.GraphRequest) (code : Int)
    (errText : String) :
    MainPy.generate_graph req (MainPy.SubprocOutcome.calledProcessError code errText) =
      Except.error (500, ⟨"error", "執行失敗: " ++ errText, some code⟩) ∧
    strContains ("執行失敗: " ++ errText) errText = true :=
  ⟨rfl, strContains_append_right _ _⟩

/-- C4: a request body that omits `output_mode` behaves exactly as one that
requests FILE explicitly, for every filename, metadata and environment. -/
theorem c4_default_mode_is_file (filename : String) (md : Option String)
    (env : Env) :
    generate_knowledge_graph filename (parseRequest none md) env =
      generate_knowledge_graph filename (parseRequest (some OutputMode.file) md) env := rfl

/-- Environment for the C5 counterexample: the output directory is NOT
writable, yet its existing content is readable and the insert succeeds. -/
def c5Env : Env :=
  ⟨500, "/srv", false, GenOutcome.exited 0 "", some "content", true, Except.ok 1⟩

/-- C5 counterexample: a DB-only request with an unwritable output directory
does not fail with 403 — the writability check sits inside the FILE/BOTH
branch, so DB mode skips it and the run succeeds. -/
theorem c5_db_mode_counterexample :
    c5Env.dirWritable = false ∧
    (generate_knowledge_graph "doc.txt" ⟨OutputMode.db, none⟩ c5Env).1 =
      Except.ok ⟨none, some 1⟩ := ⟨rfl, rfl⟩

/-- C5 (amended): for FILE and BOTH modes, an unwritable output directory
yields 403 "Directory not writable" with an empty effect trace — in
particular before any generator invocation. -/
theorem c5_unwritable_dir_403 (filename : String) (req : GenerationRequest)
    (env : Env) (hm : fileModes req.output_mode = true)
    (hw : env.dirWritable = false) :
    generate_knowledge_graph filename req env =
      (Except.error (Failure.http 403 "Directory not writable"), []) := by
  rw [generate_knowledge_graph]
  simp [hm, hw]

/-- Environment witnessing `c5_unwritable_dir_403` at a concrete input. -/
def c5WEnv : Env :=
  ⟨500, "/srv", false, GenOutcome.timeout, none, false, Except.error "x"⟩

/-- Witness for C5: the 403 theorem applied at a concrete FILE-mode request. -/
theorem c5_witness :
    generate_knowledge_graph "doc.txt" ⟨OutputMode.file, none⟩ c5WEnv =
      (Except.error (Failure.http 403 "Directory not writable"), []) :=
  c5_unwritable_dir_403 "doc.txt" ⟨OutputMode.file, none⟩ c5WEnv rfl rfl

/-- C6: a BOTH-mode request that reaches the verification step (directory
writable, generator exited 0, output readable and within the persisted-content
ceiling, insert committed with id `i`) succeeds exactly when the file exists at
the output path AND the insert produced a valid (truthy, i.e. non-zero)
identifier; if either is absent it fails with 500 "Dual write failed". -/
theorem c6_dual_write_verify (filename : String) (md : Option String) (env : Env)
    (s c : String) (i : Nat)
    (hw : env.dirWritable = true) (hg : env.genOutcome = GenOutcome.exited 0 s)
    (hf : env.fileContent = some c) (hc : c.length ≤ 10000000)
    (hd : env.dbInsert = Except.ok i) :
    Event.verifyCheck ∈
      (generate_knowledge_graph filename ⟨OutputMode.both, md⟩ env).2 ∧
    (env.fileExistsAfter = true ∧ i ≠ 0 →
      (generate_knowledge_graph filename ⟨OutputMode.both, md⟩ env).1 =
        Except.ok ⟨some (absOutputPath env filename), some i⟩) ∧
    (¬(env.fileExistsAfter = true ∧ i ≠ 0) →
      (generate_knowledge_graph filename ⟨OutputMode.both, md⟩ env).1 =
        Except.error (Failure.http 500 "Dual write failed")) := by
  have hlen : ¬ (10000000 < c.length) := by omega
  have hrun : generate_knowledge_graph filename ⟨OutputMode.both, md⟩ env =
      verifyPhase filename ⟨OutputMode.both, md⟩ env (some i)
        [Event.invokeGenerator, Event.openOutput, Event.dbAdd,
         Event.dbCommit, Event.dbClose] := by
    rw [generate_knowledge_graph]
    simp [hw, hg, dbPhase, hf, hlen, hd, fileModes_both, dbModes_both]
  rw [hrun]
  cases hfe : env.fileExistsAfter with
  | false =>
    refine ⟨by simp [verifyPhase, hfe], ?_, ?_⟩
    · rintro ⟨h1, -⟩
      exact absurd h1 (by simp [hfe])
    · intro _
      simp [verifyPhase, hfe]
  | true =>
    by_cases hi : i = 0
    · subst hi
      refine ⟨by simp [verifyPhase, hfe], ?_, ?_⟩
      · rintro ⟨-, h2⟩
        exact absurd rfl h2
      · intro _
        simp [verifyPhase, hfe]
    · refine ⟨by simp [verifyPhase, hfe, hi, finish_trace], ?_, ?_⟩
      · intro _
        simp [verifyPhase, hfe, hi, finish, fileModes_both, dbModes_both]
      · intro hcon
        exact absurd ⟨rfl, hi⟩ hcon

/-- Environment witnessing `c6_dual_write_verify`: all stages up to
verification succeed, but the file is gone at verification time. -/
def c6WEnv : Env :=
  ⟨500, "/srv", true, GenOutcome.exited 0 "", some "c", false, Except.ok 1⟩

/-- Witness for C6: with the file absent at verification time, the BOTH-mode
run fails with 500 "Dual write failed". -/
theorem c6_witness :
    Event.verifyCheck ∈
      (generate_knowledge_graph "doc.txt" ⟨OutputMode.both, none⟩ c6WEnv).2 ∧
    (generate_knowledge_graph "doc.txt" ⟨OutputMode.both, none⟩ c6WEnv).1 =
      Except.error (Failure.http 500 "Dual write failed") := by
  have h := c6_dual_write_verify "doc.txt" none c6WEnv "" "c" 1 rfl rfl rfl
    (by decide) rfl
  exact ⟨h.1, h.2.2 (by decide)⟩

/-- C7: if the generator invocation exceeds its 30-second bound, the run fails
with 504 "Generation timeout" and its trace is exactly the generator
invocation — no file is opened, no database add, commit or any other database
activity happens, so no database record is persisted. -/
theorem c7_timeout_504 (filename : String) (req : GenerationRequest) (env : Env)
    (hm : fileModes req.output_mode = true) (hw : env.dirWritable = true)
    (hg : env.genOutcome = GenOutcome.timeout) :
    generate_knowledge_graph filename req env =
      (Except.error (Failure.http 504 "Generation timeout"),
       [Event.invokeGenerator]) := by
  rw [generate_knowledge_graph]
  simp [hm, hw, hg]

/-- Environment witnessing `c7_timeout_504`. -/
def c7WEnv : Env :=
  ⟨500, "/srv", true, GenOutcome.timeout, none, false, Except.error "x"⟩

/-- Witness for C7: the timeout theorem applied at a concrete FILE-mode
request. -/
theorem c7_witness :
    generate_knowledge_graph "doc.txt" ⟨OutputMode.file, none⟩ c7WEnv =
      (Except.error (Failure.http 504 "Generation timeout"),
       [Event.invokeGenerator]) :=
  c7_timeout_504 "doc.txt" ⟨OutputMode.file, none⟩ c7WEnv rfl rfl rfl

/-- C8: every successful run returns `file_path` non-null exactly when the mode
is FILE or BOTH and `db_id` non-null exactly when the mode is DB or BOTH; a
FILE-mode success additionally performed no database add or commit (no row
created), and a DB-mode success has a null `file_path`. -/
theorem c8_result_fields (filename : String) (req : GenerationRequest)
    (env : Env) (r : PipelineResult) (evs : List Event)
    (h : generate_knowledge_graph filename req env = (Except.ok r, evs)) :
    r.file_path.isSome = fileModes req.output_mode ∧
    r.db_id.isSome = dbModes req.output_mode ∧
    (req.output_mode = OutputMode.file →
      r.db_id = none ∧ Event.dbAdd ∉ evs ∧ Event.dbCommit ∉ evs) ∧
    (req.output_mode = OutputMode.db → r.file_path = none) := by
  rw [generate_knowledge_graph] at h
  cases hm : req.output_mode with
  | file =>
    rw [hm] at h
    cases hw : env.dirWritable with
    | false => rw [hw] at h; simp [fileModes_file, hm] at h
    | true =>
      rw [hw] at h
      cases hgo : env.genOutcome with
      | timeout => rw [hgo] at h; simp [fileModes_file, hm] at h
      | exited code s =>
        rw [hgo] at h
        by_cases hcz : code = 0
        · subst hcz
          simp [fileModes_file, dbModes_file, dbPhase, verifyPhase, finish, hm] at h
          obtain ⟨h1, h2⟩ := h
          subst h1
          subst h2
          exact ⟨rfl, rfl, fun _ => ⟨rfl, by decide, by decide⟩,
            fun hcon => OutputMode.noConfusion hcon⟩
        · simp [fileModes_file, hcz, hm] at h
  | db =>
    rw [hm] at h
    cases hfc : env.fileContent with
    | none => simp [fileModes_db, dbModes_db, dbPhase, hfc, hm] at h
    | some c =>
      by_cases hl : 10000000 < c.length
      · simp [fileModes_db, dbModes_db, dbPhase, hfc, hl, hm] at h
      · cases hdi : env.dbInsert with
        | error e =>
          simp [fileModes_db, dbModes_db, dbPhase, hfc, hl, hdi, hm] at h
        | ok i =>
          simp [fileModes_db, dbModes_db, dbPhase, verifyPhase, finish, hfc, hl,
            hdi, hm] at h
          obtain ⟨h1, h2⟩ := h
          subst h1
          subst h2
          exact ⟨rfl, rfl, fun hcon => OutputMode.noConfusion hcon, fun _ => rfl⟩
  | both =>
    rw [hm] at h
    cases hw : env.dirWritable with
    | false => rw [hw] at h; simp [fileModes_both, hm] at h
    | true =>
      rw [hw] at h
      cases hgo : env.genOutcome with
      | timeout => rw [hgo] at h; simp [fileModes_both, hm] at h
      | exited code s =>
        rw [hgo] at h
        by_cases hcz : code = 0
        · subst hcz
          cases hfc : env.fileContent with
          | none => simp [fileModes_both, dbModes_both, dbPhase, hfc, hm] at h
          | some c =>
            by_cases hl : 10000000 < c.length
            · simp [fileModes_both, dbModes_both, dbPhase, hfc, hl, hm] at h
            · cases hdi : env.dbInsert with
              | error e =>
                simp [fileModes_both, dbModes_both, dbPhase, hfc, hl, hdi, hm] at h
              | ok i =>
                cases hfe : env.fileExistsAfter with
                | false =>
                  simp [fileModes_both, dbModes_both, dbPhase, verifyPhase, hfc,
                    hl, hdi, hfe, hm] at h
                | true =>
                  by_cases hiz : i = 0
                  · simp [fileModes_both, dbModes_both, dbPhase, verifyPhase,
                      finish, hfc, hl, hdi, hfe, hiz, hm] at h
                  · simp [fileModes_both, dbModes_both, dbPhase, verifyPhase,
                      finish, hfc, hl, hdi, hfe, hiz, hm] at h
                    obtain ⟨h1, h2⟩ := h
                    subst h1
                    subst h2
                    exact ⟨rfl, rfl, fun hcon => OutputMode.noConfusion hcon,
                      fun hcon => OutputMode.noConfusion hcon⟩
        · simp [fileModes_both, hcz, hm] at h

/-- Environment witnessing `c8_result_fields`: a successful FILE-mode run. -/
def c8WEnv : Env :=
  ⟨500, "/srv", true, GenOutcome.exited 0 "", none, false, Except.error "x"⟩

/-- Witness for C8: the field theorem applied to a concrete successful
FILE-mode run, whose result has a null db_id and whose trace has no database
add or commit. -/
theorem c8_witness :
    (⟨some "/srv/output/doc.txt", none⟩ : PipelineResult).db_id = none ∧
    Event.dbAdd ∉ [Event.invokeGenerator] ∧
    Event.dbCommit ∉ [Event.invokeGenerator] := by
  have h := c8_result_fields "doc.txt" ⟨OutputMode.file, none⟩ c8WEnv
    ⟨some "/srv/output/doc.txt", none⟩ [Event.invokeGenerator] rfl
  exact h.2.2.1 rfl

/-- C9: in every run whose trace shows a database add attempt, if the
add/commit fails with exception text `e`, the run ends with the database error
(500, text `e`) and its trace contains the rollback but no commit — the
rollback is performed during the run, hence before the error propagates, and
no record is persisted by the failed attempt. -/
theorem c9_rollback_before_error (filename : String) (req : GenerationRequest)
    (env : Env) (e : String) (hd : env.dbInsert = Except.error e)
    (hmem : Event.dbAdd ∈ (generate_knowledge_graph filename req env).2) :
    (generate_knowledge_graph filename req env).1 =
      Except.error (Failure.http 500 e) ∧
    Event.dbRollback ∈ (generate_knowledge_graph filename req env).2 ∧
    Event.dbCommit ∉ (generate_knowledge_graph filename req env).2 := by
  cases hm : req.output_mode with
  | file =>
    cases hw : env.dirWritable with
    | false =>
      simp [generate_knowledge_graph, fileModes_file, hm, hw] at hmem
    | true =>
      cases hgo : env.genOutcome with
      | timeout =>
        simp [generate_knowledge_graph, fileModes_file, hm, hw, hgo] at hmem
      | exited code s =>
        by_cases hcz : code = 0
        · subst hcz
          simp [generate_knowledge_graph, fileModes_file, dbModes_file, dbPhase,
            verifyPhase, finish, hm, hw, hgo] at hmem
        · simp [generate_knowledge_graph, fileModes_file, hm, hw, hgo,
            hcz] at hmem
  | db =>
    cases hfc : env.fileContent with
    | none =>
      simp [generate_knowledge_graph, fileModes_db, dbModes_db, dbPhase, hm,
        hfc] at hmem
    | some c =>
      by_cases hl : 10000000 < c.length
      · simp [generate_knowledge_graph, fileModes_db, dbModes_db, dbPhase, hm,
          hfc, hl] at hmem
      · refine ⟨?_, ?_, ?_⟩ <;>
          simp [generate_knowledge_graph, fileModes_db, dbModes_db, dbPhase,
            hm, hfc, hl, hd]
  | both =>
    cases hw : env.dirWritable with
    | false =>
      simp [generate_knowledge_graph, fileModes_both, hm, hw] at hmem
    | true =>
      cases hgo : env.genOutcome with
      | timeout =>
        simp [generate_knowledge_graph, fileModes_both, hm, hw, hgo] at hmem
      | exited code s =>
        by_cases hcz : code = 0
        · subst hcz
          cases hfc : env.fileContent with
          | none =>
            simp [generate_knowledge_graph, fileModes_both, dbModes_both,
              dbPhase, hm, hw, hgo, hfc] at hmem
          | some c =>
            by_cases hl : 10000000 < c.length
            · simp [generate_knowledge_graph, fileModes_both, dbModes_both,
                dbPhase, hm, hw, hgo, hfc, hl] at hmem
            · refine ⟨?_, ?_, ?_⟩ <;>
                simp [generate_knowledge_graph, fileModes_both, dbModes_both,
                  dbPhase, hm, hw, hgo, hfc, hl, hd]
        · simp [generate_knowledge_graph, fileModes_both, hm, hw, hgo,
            hcz] at hmem

/-- Environment witnessing `c9_rollback_before_error`: a DB-only request whose
insert hits a uniqueness violation. -/
def c9WEnv : Env :=
  ⟨500, "/srv", true, GenOutcome.exited 0 "", some "x", false,
   Except.error "duplicate key"⟩

/-- Witness for C9: the rollback theorem applied at a concrete DB-mode run
whose insert fails. -/
theorem c9_witness :
    (generate_knowledge_graph "doc.txt" ⟨OutputMode.db, none⟩ c9WEnv).1 =
      Except.error (Failure.http 500 "duplicate key") ∧
    Event.dbRollback ∈
      (generate_knowledge_graph "doc.txt" ⟨OutputMode.db, none⟩ c9WEnv).2 ∧
    Event.dbCommit ∉
      (generate_knowledge_graph "doc.txt" ⟨OutputMode.db, none⟩ c9WEnv).2 :=
  c9_rollback_before_error "doc.txt" ⟨OutputMode.db, none⟩ c9WEnv
    "duplicate key" rfl (by decide)

/-- C10: in a BOTH-mode run where the generator succeeded (so the artifact file
was written) and the database write then fails with exception text `e`, the
run reports only the database error (500, text `e`) and its trace —
generator invocation, read, add, rollback, close — contains no file removal:
no compensating deletion of the already-written file is performed. -/
theorem c10_file_left_in_place (filename : String) (md : Option String)
    (env : Env) (s c e : String)
    (hw : env.dirWritable = true) (hg : env.genOutcome = GenOutcome.exited 0 s)
    (hf : env.fileContent = some c) (hc : c.length ≤ 10000000)
    (hd : env.dbInsert = Except.error e) :
    generate_knowledge_graph filename ⟨OutputMode.both, md⟩ env =
      (Except.error (Failure.http 500 e),
       [Event.invokeGenerator, Event.openOutput, Event.dbAdd,
        Event.dbRollback, Event.dbClose]) ∧
    Event.removeFile ∉
      (generate_knowledge_graph filename ⟨OutputMode.both, md⟩ env).2 := by
  have hlen : ¬ (10000000 < c.length) := by omega
  have hrun : generate_knowledge_graph filename ⟨OutputMode.both, md⟩ env =
      (Except.error (Failure.http 500 e),
       [Event.invokeGenerator, Event.openOutput, Event.dbAdd,
        Event.dbRollback, Event.dbClose]) := by
    rw [generate_knowledge_graph]
    simp [hw, hg, dbPhase, hf, hlen, hd, fileModes_both, dbModes_both]
  refine ⟨hrun, ?_⟩
  rw [hrun]
  simp

/-- Environment witnessing `c10_file_left_in_place`: the generator wrote the
file, then the database connection is lost. -/
def c10WEnv : Env :=
  ⟨500, "/srv", true, GenOutcome.exited 0 "", some "x", true,
   Except.error "connection lost"⟩

/-- Witness for C10: the no-compensating-delete theorem applied at a concrete
BOTH-mode run whose database write fails. -/
theorem c10_witness :
    generate_knowledge_graph "doc.txt" ⟨OutputMode.both, none⟩ c10WEnv =
      (Except.error (Failure.http 500 "connection lost"),
       [Event.invokeGenerator, Event.openOutput, Event.dbAdd,
        Event.dbRollback, Event.dbClose]) ∧
    Event.removeFile ∉
      (generate_knowledge_graph "doc.txt" ⟨OutputMode.both, none⟩ c10WEnv).2 :=
  c10_file_left_in_place "doc.txt" none c10WEnv "" "x" "connection lost"
    rfl rfl rfl (by decide) rfl
